import Mathlib

/-!
Wallarm Terraform provider: the `wallarm_global_mode` resource.

A shallow embedding of `wallarm/resource_global_mode.go` (the four lifecycle
callbacks of the resource) and of the `api_uuid` validator declared in
`wallarm/provider.go`.

The Go callbacks mutate a `*schema.ResourceData` and talk to the remote
platform through the `wallarm.API` client.  Here the resource data is a record
passed in and out, the client is a record of transition functions over an
arbitrary remote state `σ`, and every client call is appended to a call log so
that statements about which requests were issued can be made.
-/

namespace Wallarm

/-! ## Request and response types of the API client -/

/-- Payload of `WallarmModeUpdate`. -/
structure WallarmModeParams where
  Mode : String
deriving DecidableEq

/-- Body of the reply of the mode endpoint. -/
structure WallarmModeBody where
  Mode : String
deriving DecidableEq

/-- Reply of the mode endpoint (`WallarmModeRead`, `WallarmModeUpdate`). -/
structure WallarmModeResp where
  Status : Int
  Body : WallarmModeBody
deriving DecidableEq

/-- Selects a client by its identifier. -/
structure ClientFilter where
  ID : Int
deriving DecidableEq

/-- The fields `ClientUpdate` writes. -/
structure ClientFields where
  ScannerMode : String
  AttackRecheckerMode : String
deriving DecidableEq

/-- Payload of `ClientUpdate`. -/
structure ClientUpdate where
  Filter : ClientFilter
  Fields : ClientFields
deriving DecidableEq

/-- Filter of `ClientRead`; `ClientFilter` is the embedded struct. -/
structure ClientReadFilter where
  Enabled : Bool
  ClientFilter : Wallarm.ClientFilter
deriving DecidableEq

/-- Payload of `ClientRead`. -/
structure ClientRead where
  Filter : ClientReadFilter
  Limit : Int
  Offset : Int
deriving DecidableEq

/-- One record of the client listing (the fields the resource reads). -/
structure ClientBody where
  ID : Int
  ScannerMode : String
  AttackRecheckerMode : String
deriving DecidableEq

/-- Reply of the client endpoint (`ClientRead`, `ClientUpdate`). -/
structure ClientInfo where
  Status : Int
  Body : List ClientBody
deriving DecidableEq

/-- A request issued through the API client. -/
inductive Call where
  | WallarmModeUpdate (params : WallarmModeParams) (clientID : Int)
  | ClientUpdate (params : Wallarm.ClientUpdate)
  | WallarmModeRead (clientID : Int)
  | ClientRead (params : Wallarm.ClientRead)
deriving DecidableEq

/-- Whether a request is a write to the mode or to the client endpoint. -/
def Call.isWrite : Call → Bool
  | .WallarmModeUpdate _ _ => true
  | .ClientUpdate _ => true
  | .WallarmModeRead _ => false
  | .ClientRead _ => false

/-- Whether a request is a write to the client endpoint. -/
def Call.isClientUpdate : Call → Bool
  | .ClientUpdate _ => true
  | _ => false

/-- The part of `wallarm.API` the resource uses: each method takes the remote
state and returns the Go pair (response, error) as an `Except` together with
the remote state after the request. -/
structure API (σ : Type) where
  WallarmModeUpdate : WallarmModeParams → Int → σ → Except String WallarmModeResp × σ
  ClientUpdate : Wallarm.ClientUpdate → σ → Except String ClientInfo × σ
  WallarmModeRead : Int → σ → Except String WallarmModeResp × σ
  ClientRead : Wallarm.ClientRead → σ → Except String ClientInfo × σ

/-- Everything outside the resource data: the remote platform, the requests
issued so far (oldest first) and the lines written with `log.Printf`. -/
structure World (σ : Type) where
  remote : σ
  calls : List Call
  logs : List String

namespace World

variable {σ : Type}

/-- Perform `client.WallarmModeUpdate(params, clientID)`. -/
def WallarmModeUpdate (w : World σ) (api : API σ) (params : WallarmModeParams) (clientID : Int) :
    Except String WallarmModeResp × World σ :=
  let r := api.WallarmModeUpdate params clientID w.remote
  (r.1, { w with remote := r.2, calls := w.calls ++ [Call.WallarmModeUpdate params clientID] })

/-- Perform `client.ClientUpdate(params)`. -/
def ClientUpdate (w : World σ) (api : API σ) (params : Wallarm.ClientUpdate) :
    Except String ClientInfo × World σ :=
  let r := api.ClientUpdate params w.remote
  (r.1, { w with remote := r.2, calls := w.calls ++ [Call.ClientUpdate params] })

/-- Perform `client.WallarmModeRead(clientID)`. -/
def WallarmModeRead (w : World σ) (api : API σ) (clientID : Int) :
    Except String WallarmModeResp × World σ :=
  let r := api.WallarmModeRead clientID w.remote
  (r.1, { w with remote := r.2, calls := w.calls ++ [Call.WallarmModeRead clientID] })

/-- Perform `client.ClientRead(params)`. -/
def ClientRead (w : World σ) (api : API σ) (params : Wallarm.ClientRead) :
    Except String ClientInfo × World σ :=
  let r := api.ClientRead params w.remote
  (r.1, { w with remote := r.2, calls := w.calls ++ [Call.ClientRead params] })

/-- The effect of `log.Printf`. -/
def Printf (w : World σ) (line : String) : World σ :=
  { w with logs := w.logs ++ [line] }

end World

/-! ## Resource data -/

/-- A value handed to `d.Set`. -/
inductive Value where
  | str (s : String)
  | int (n : Int)
deriving DecidableEq

/-- The `schema.ResourceData` of a `wallarm_global_mode` resource: its identity
and the four attributes of the schema, as `d.Get` returns them. An unset
`client_id` reads as the zero value. -/
structure ResourceData where
  id : String
  client_id : Int
  filtration_mode : String
  scanner_mode : String
  rechecker_mode : String
deriving DecidableEq

namespace ResourceData

/-- The method `d.SetId`. -/
def SetId (d : ResourceData) (v : String) : ResourceData :=
  { d with id := v }

/-- The method `d.Set`: fails for a key outside the schema and for a value of
the wrong type. -/
def Set (d : ResourceData) (key : String) (v : Value) : Except String ResourceData :=
  if key = "client_id" then
    match v with
    | .int n => .ok { d with client_id := n }
    | .str _ => .error "client_id: expected int"
  else if key = "filtration_mode" then
    match v with
    | .str s => .ok { d with filtration_mode := s }
    | .int _ => .error "filtration_mode: expected string"
  else if key = "scanner_mode" then
    match v with
    | .str s => .ok { d with scanner_mode := s }
    | .int _ => .error "scanner_mode: expected string"
  else if key = "rechecker_mode" then
    match v with
    | .str s => .ok { d with rechecker_mode := s }
    | .int _ => .error "rechecker_mode: expected string"
  else
    .error ("Invalid address to set: " ++ key)

/-- A call of `d.Set` whose error is dropped, as in `d.Set("client_id", clientID)`. -/
def SetIgnoringError (d : ResourceData) (key : String) (v : Value) : ResourceData :=
  match d.Set key v with
  | .ok d1 => d1
  | .error _ => d

end ResourceData

/-- The values `validation.StringInSlice` admits for `filtration_mode`. -/
def filtrationModes : List String := ["default", "monitoring", "block", "safe_blocking", "off"]

/-- The values `validation.StringInSlice` admits for `scanner_mode`. -/
def scannerModes : List String := ["on", "off"]

/-- The values `validation.StringInSlice` admits for `rechecker_mode`. -/
def recheckerModes : List String := ["on", "off"]

/-- The three mode attributes pass the validators of the schema. -/
def ValidModes (filtrationMode scannerMode recheckerMode : String) : Prop :=
  filtrationMode ∈ filtrationModes ∧ scannerMode ∈ scannerModes ∧ recheckerMode ∈ recheckerModes

instance (f s r : String) : Decidable (ValidModes f s r) := by
  unfold ValidModes; infer_instance

/-- Modelled from the spec: `retrieveClientID` is defined in a file of the
provider that is not part of the sources at hand. The account identifier is
the one configured on the resource when there is one, and otherwise the
identifier the provider resolved for the caller's credentials: the package
variable `ClientID` that `providerConfigure` assigns, passed here as an
argument. -/
def retrieveClientID (d : ResourceData) (ClientID : Int) : Int :=
  if d.client_id ≠ 0 then d.client_id else ClientID

/-- The result of `json.Marshal` on a mode reply. Encoding a struct of integers
and strings cannot fail. The text only feeds a log line; string contents are
written without JSON escaping. -/
def jsonMarshalModeResp (r : WallarmModeResp) : Except String String :=
  .ok ("\x7b\"status\":" ++ toString r.Status ++ ",\"body\":\x7b\"mode\":\"" ++ r.Body.Mode
    ++ "\"\x7d\x7d")

/-- The result of `json.Marshal` on a client reply; see `jsonMarshalModeResp`. -/
def jsonMarshalClientInfo (r : ClientInfo) : Except String String :=
  .ok ("\x7b\"status\":" ++ toString r.Status ++ ",\"body\":["
    ++ ",".intercalate (r.Body.map fun c =>
        "\x7b\"id\":" ++ toString c.ID ++ ",\"scanner_mode\":\"" ++ c.ScannerMode
          ++ "\",\"attack_rechecker_mode\":\"" ++ c.AttackRecheckerMode ++ "\"\x7d")
    ++ "]\x7d")

/-! ## The lifecycle callbacks -/

/-- What a callback leaves behind: the error it returns (`none` for `nil`),
the resource data and the world. -/
structure Outcome (σ : Type) where
  err : Option String
  d : ResourceData
  w : World σ

variable {σ : Type}

/-- The translation of the scanner mode applied before the client write. -/
def scannerModeToRemote (scannerMode : String) : String :=
  if scannerMode = "on" then "classic" else scannerMode

/-- The translation of the scanner mode applied to the value read back. -/
def scannerModeFromRemote (scannerMode : String) : String :=
  if scannerMode = "classic" then "on" else scannerMode

/-- The callback `resourceWallarmGlobalModeRead`. -/
def resourceWallarmGlobalModeRead (api : API σ) (ClientID : Int) (d : ResourceData)
    (w : World σ) : Outcome σ :=
  let clientID := retrieveClientID d ClientID
  match w.WallarmModeRead api clientID with
  | (.error err, w1) => ⟨some err, d, w1⟩
  | (.ok wallarmModeResp, w1) =>
    if wallarmModeResp.Status ≠ 200 then
      match jsonMarshalModeResp wallarmModeResp with
      | .error err => ⟨some err, d, w1⟩
      | .ok body =>
        ⟨none, d.SetId "", w1.Printf ("[WARN] Couldn't fetch wallarm_mode. Body: " ++ body)⟩
    else
      let filtrationMode := wallarmModeResp.Body.Mode
      match d.Set "filtration_mode" (.str filtrationMode) with
      | .error err => ⟨some err, d, w1⟩
      | .ok d1 =>
        let clientInfo : ClientRead :=
          { Filter := { Enabled := true, ClientFilter := { ID := clientID } },
            Limit := 1000,
            Offset := 0 }
        match w1.ClientRead api clientInfo with
        | (.error err, w2) => ⟨some err, d1, w2⟩
        | (.ok otherModesResp, w2) =>
          match otherModesResp.Body with
          | [] =>
            match jsonMarshalClientInfo otherModesResp with
            | .error err => ⟨some err, d1, w2⟩
            | .ok body =>
              ⟨none, d1.SetId "",
                w2.Printf ("[WARN] Client hasn't been found in API. Body: " ++ body)⟩
          | first :: _ =>
            let scannerMode := scannerModeFromRemote first.ScannerMode
            match d1.Set "scanner_mode" (.str scannerMode) with
            | .error err => ⟨some err, d1, w2⟩
            | .ok d2 =>
              let recheckerMode := first.AttackRecheckerMode
              match d2.Set "rechecker_mode" (.str recheckerMode) with
              | .error err => ⟨some err, d2, w2⟩
              | .ok d3 => ⟨none, d3.SetIgnoringError "client_id" (.int clientID), w2⟩

/-- The text `fmt.Sprintf("%d/%s/%s/%s", clientID, a, b, c)`. -/
def formatID (clientID : Int) (a b c : String) : String :=
  toString clientID ++ "/" ++ a ++ "/" ++ b ++ "/" ++ c

/-- The callback `resourceWallarmGlobalModeCreate`. -/
def resourceWallarmGlobalModeCreate (api : API σ) (ClientID : Int) (d : ResourceData)
    (w : World σ) : Outcome σ :=
  let clientID := retrieveClientID d ClientID
  let filtrationMode := d.filtration_mode
  match w.WallarmModeUpdate api { Mode := filtrationMode } clientID with
  | (.error err, w1) => ⟨some err, d, w1⟩
  | (.ok _, w1) =>
    let scannerMode := scannerModeToRemote d.scanner_mode
    let recheckerMode := d.rechecker_mode
    let mode : ClientUpdate :=
      { Filter := { ID := clientID },
        Fields := { ScannerMode := scannerMode, AttackRecheckerMode := recheckerMode } }
    match w1.ClientUpdate api mode with
    | (.error err, w2) => ⟨some err, d, w2⟩
    | (.ok _, w2) =>
      let resID := formatID clientID filtrationMode scannerMode recheckerMode
      let d1 := d.SetId resID
      let d2 := d1.SetIgnoringError "client_id" (.int clientID)
      resourceWallarmGlobalModeRead api ClientID d2 w2

/-- The callback `resourceWallarmGlobalModeUpdate`. -/
def resourceWallarmGlobalModeUpdate (api : API σ) (ClientID : Int) (d : ResourceData)
    (w : World σ) : Outcome σ :=
  resourceWallarmGlobalModeCreate api ClientID d w

/-- The callback `resourceWallarmGlobalModeDelete`. -/
def resourceWallarmGlobalModeDelete (_api : API σ) (_ClientID : Int) (d : ResourceData)
    (w : World σ) : Outcome σ :=
  ⟨none, d, w⟩

/-! ## A remote that stores what is written -/

/-- The state of a simple remote platform: the filtration mode stored per
account and the client records. -/
structure Store where
  modes : List (Int × String)
  clients : List ClientBody
deriving DecidableEq

/-- A remote that stores what is written and returns it on read. The mode
endpoint answers 404 for an account without a stored mode; the client listing
holds the records of the requested account. -/
def storeAPI : API Store where
  WallarmModeUpdate := fun params clientID s =>
    (.ok { Status := 200, Body := { Mode := params.Mode } },
      { s with modes := (clientID, params.Mode) :: s.modes.filter fun e => e.1 ≠ clientID })
  ClientUpdate := fun params s =>
    let record : ClientBody :=
      { ID := params.Filter.ID,
        ScannerMode := params.Fields.ScannerMode,
        AttackRecheckerMode := params.Fields.AttackRecheckerMode }
    (.ok { Status := 200, Body := [record] },
      { s with clients := record :: s.clients.filter fun c => c.ID ≠ params.Filter.ID })
  WallarmModeRead := fun clientID s =>
    match s.modes.lookup clientID with
    | some mode => (.ok { Status := 200, Body := { Mode := mode } }, s)
    | none => (.ok { Status := 404, Body := { Mode := "" } }, s)
  ClientRead := fun params s =>
    (.ok { Status := 200,
           Body := s.clients.filter fun c => c.ID = params.Filter.ClientFilter.ID }, s)

/-- The remote `storeAPI`, except that the mode endpoint turns every write
down: the reply carries status 403 and no error, and nothing is stored. -/
def rejectingAPI : API Store :=
  { storeAPI with
    WallarmModeUpdate := fun _ _ s => (.ok { Status := 403, Body := { Mode := "" } }, s) }

/-- A remote is stable on the set of states `P` for an account when, in every
state of `P`, the mode read answers status 200 with `filtrationMode`, the
client listing the resource asks for starts with a record carrying
`scannerMode` and `recheckerMode`, and both reads lead to a state of `P`. -/
structure StableRemote (api : API σ) (clientID : Int)
    (filtrationMode scannerMode recheckerMode : String) (P : σ → Prop) : Prop where
  modeRead : ∀ s, P s → ∃ resp s1,
    api.WallarmModeRead clientID s = (.ok resp, s1) ∧ resp.Status = 200 ∧
      resp.Body.Mode = filtrationMode ∧ P s1
  clientRead : ∀ s, P s → ∃ info s1 first rest,
    api.ClientRead
        { Filter := { Enabled := true, ClientFilter := { ID := clientID } },
          Limit := 1000, Offset := 0 } s = (.ok info, s1) ∧
      info.Body = first :: rest ∧ first.ScannerMode = scannerMode ∧
      first.AttackRecheckerMode = recheckerMode ∧ P s1

/-! ## The `api_uuid` validator of the provider schema -/

/-- The bracket expression `[0-9a-f\-]`. -/
def apiUUIDClass (c : Char) : Bool :=
  ('0' ≤ c && c ≤ '9') || ('a' ≤ c && c ≤ 'f') || c = '-'

/-- Whether `[class]+` matches at the start of the text: the run of class
characters there has at least one character. -/
def matchClassPlusHere (cls : Char → Bool) (text : List Char) : Bool :=
  0 < (text.takeWhile cls).length

/-- The method `MatchString` of the compiled pattern `[class]+`: the pattern is
not anchored, so it is tried at every position of the text. -/
def MatchString (cls : Char → Bool) : List Char → Bool
  | [] => matchClassPlusHere cls []
  | c :: cs => matchClassPlusHere cls (c :: cs) || MatchString cls cs

/-- The validator `validation.StringMatch(r, message)` applied to the value `v`
of key `k`: the warnings and the errors it reports. -/
def StringMatch (r : List Char → Bool) (message : String) (v k : String) :
    List String × List String :=
  if !r v.toList then
    if message ≠ "" then
      ([], ["invalid value for " ++ k ++ " (" ++ message ++ ")"])
    else
      ([], ["expected value of " ++ k ++ " to match regular expression"])
  else
    ([], [])

/-- The `ValidateFunc` of `api_uuid`. -/
def apiUUIDValidateFunc (v k : String) : List String × List String :=
  StringMatch (MatchString apiUUIDClass)
    "API key must only contain characters 0-9 and a-f (all lowercased)" v k

/-! ## Concrete inputs -/

/-- The remote `storeAPI`, except that every write to the mode endpoint fails
with an error and stores nothing. -/
def failingAPI : API Store :=
  { storeAPI with
    WallarmModeUpdate := fun _ _ s => (.error "503 Service Unavailable", s) }

/-- The desired state of the scenario: account 42 with `block`, `on`, `off`,
and no identity yet. -/
def desired42 : ResourceData :=
  { id := "", client_id := 42, filtration_mode := "block", scanner_mode := "on",
    rechecker_mode := "off" }

/-- A tracked state of account 42 that is out of date: identity and attributes
say `default`, `off`, `off`. -/
def stale42 : ResourceData :=
  { id := "42/default/off/off", client_id := 42, filtration_mode := "default",
    scanner_mode := "off", rechecker_mode := "off" }

/-- A remote holding nothing, with no request issued yet. -/
def emptyWorld : World Store :=
  { remote := { modes := [], clients := [] }, calls := [], logs := [] }

/-- A remote holding `block` and the client record `classic`, `off` for account 42. -/
def stored42 : Store :=
  { modes := [(42, "block")],
    clients := [{ ID := 42, ScannerMode := "classic", AttackRecheckerMode := "off" }] }

/-- The world around `stored42`, with no request issued yet. -/
def storedWorld : World Store :=
  { remote := stored42, calls := [], logs := [] }

/-! ## Auxiliary facts -/

theorem set_filtration_mode (d : ResourceData) (v : String) :
    d.Set "filtration_mode" (.str v) = .ok { d with filtration_mode := v } := rfl

theorem set_scanner_mode (d : ResourceData) (v : String) :
    d.Set "scanner_mode" (.str v) = .ok { d with scanner_mode := v } := rfl

theorem set_rechecker_mode (d : ResourceData) (v : String) :
    d.Set "rechecker_mode" (.str v) = .ok { d with rechecker_mode := v } := rfl

theorem setIgnoringError_client_id (d : ResourceData) (n : Int) :
    d.SetIgnoringError "client_id" (.int n) = { d with client_id := n } := rfl

/-- Storing the resolved account identifier on the resource does not change
what `retrieveClientID` resolves. -/
theorem retrieveClientID_stored (d : ResourceData) (ClientID : Int) (id fm sm rm : String) :
    retrieveClientID
      { id := id, client_id := retrieveClientID d ClientID, filtration_mode := fm,
        scanner_mode := sm, rechecker_mode := rm } ClientID = retrieveClientID d ClientID := by
  unfold retrieveClientID
  by_cases h : d.client_id = 0 <;> by_cases h2 : ClientID = 0 <;> simp [h, h2]

/-- The read callback on a remote whose mode read answers 200 and whose client
listing is not empty: no error, the three attributes and `client_id` are taken
from the replies, the identity is left as it was, and exactly the two reads
are issued. -/
theorem read_found (api : API σ) (ClientID : Int) (d : ResourceData) (w : World σ)
    (resp : WallarmModeResp) (s1 : σ) (info : ClientInfo) (s2 : σ)
    (first : ClientBody) (rest : List ClientBody)
    (hmode : api.WallarmModeRead (retrieveClientID d ClientID) w.remote = (.ok resp, s1))
    (hstatus : resp.Status = 200)
    (hclient : api.ClientRead
        { Filter := { Enabled := true, ClientFilter := { ID := retrieveClientID d ClientID } },
          Limit := 1000, Offset := 0 } s1 = (.ok info, s2))
    (hbody : info.Body = first :: rest) :
    resourceWallarmGlobalModeRead api ClientID d w =
      { err := none,
        d := { id := d.id, client_id := retrieveClientID d ClientID,
               filtration_mode := resp.Body.Mode,
               scanner_mode := scannerModeFromRemote first.ScannerMode,
               rechecker_mode := first.AttackRecheckerMode },
        w := { remote := s2,
               calls := (w.calls ++ [Call.WallarmModeRead (retrieveClientID d ClientID)]) ++
                 [Call.ClientRead
                   { Filter := { Enabled := true,
                                 ClientFilter := { ID := retrieveClientID d ClientID } },
                     Limit := 1000, Offset := 0 }],
               logs := w.logs } } := by
  simp only [resourceWallarmGlobalModeRead, World.WallarmModeRead, World.ClientRead, hmode,
    hstatus, hclient, hbody, set_filtration_mode, set_scanner_mode, set_rechecker_mode,
    setIgnoringError_client_id, ne_eq, not_true_eq_false, if_false]

/-- The read callback when the mode read answers with a status other than 200:
the identity is cleared, one warning is logged, only the mode read is issued. -/
theorem read_mode_not_found (api : API σ) (ClientID : Int) (d : ResourceData) (w : World σ)
    (resp : WallarmModeResp) (s1 : σ)
    (hmode : api.WallarmModeRead (retrieveClientID d ClientID) w.remote = (.ok resp, s1))
    (hstatus : resp.Status ≠ 200) :
    ∃ line, resourceWallarmGlobalModeRead api ClientID d w =
      { err := none,
        d := d.SetId "",
        w := { remote := s1,
               calls := w.calls ++ [Call.WallarmModeRead (retrieveClientID d ClientID)],
               logs := w.logs ++ [line] } } := by
  simp only [resourceWallarmGlobalModeRead, World.WallarmModeRead, hmode, hstatus,
    jsonMarshalModeResp, ne_eq, not_false_eq_true, if_true, World.Printf]
  exact ⟨_, rfl⟩

/-- The read callback when the client listing is empty: the identity is
cleared after `filtration_mode` was refreshed, and one warning is logged. -/
theorem read_client_not_found (api : API σ) (ClientID : Int) (d : ResourceData) (w : World σ)
    (resp : WallarmModeResp) (s1 : σ) (info : ClientInfo) (s2 : σ)
    (hmode : api.WallarmModeRead (retrieveClientID d ClientID) w.remote = (.ok resp, s1))
    (hstatus : resp.Status = 200)
    (hclient : api.ClientRead
        { Filter := { Enabled := true, ClientFilter := { ID := retrieveClientID d ClientID } },
          Limit := 1000, Offset := 0 } s1 = (.ok info, s2))
    (hbody : info.Body = []) :
    ∃ line, resourceWallarmGlobalModeRead api ClientID d w =
      { err := none,
        d := { d with id := "", filtration_mode := resp.Body.Mode },
        w := { remote := s2,
               calls := (w.calls ++ [Call.WallarmModeRead (retrieveClientID d ClientID)]) ++
                 [Call.ClientRead
                   { Filter := { Enabled := true,
                                 ClientFilter := { ID := retrieveClientID d ClientID } },
                     Limit := 1000, Offset := 0 }],
               logs := w.logs ++ [line] } } := by
  simp only [resourceWallarmGlobalModeRead, World.WallarmModeRead, World.ClientRead, hmode,
    hstatus, hclient, hbody, set_filtration_mode, jsonMarshalClientInfo, ne_eq,
    not_true_eq_false, if_false, World.Printf, ResourceData.SetId]
  exact ⟨_, rfl⟩

/-- When both writes succeed the create callback continues as the read callback,
on the resource data carrying the new identity and the resolved account. -/
theorem create_writes_ok (api : API σ) (ClientID : Int) (d : ResourceData) (w : World σ)
    (r1 : WallarmModeResp) (s1 : σ) (r2 : ClientInfo) (s2 : σ)
    (hmw : api.WallarmModeUpdate { Mode := d.filtration_mode } (retrieveClientID d ClientID)
      w.remote = (.ok r1, s1))
    (hcw : api.ClientUpdate
        { Filter := { ID := retrieveClientID d ClientID },
          Fields := { ScannerMode := scannerModeToRemote d.scanner_mode,
                      AttackRecheckerMode := d.rechecker_mode } } s1 = (.ok r2, s2)) :
    resourceWallarmGlobalModeCreate api ClientID d w =
      resourceWallarmGlobalModeRead api ClientID
        { id := formatID (retrieveClientID d ClientID) d.filtration_mode
            (scannerModeToRemote d.scanner_mode) d.rechecker_mode,
          client_id := retrieveClientID d ClientID,
          filtration_mode := d.filtration_mode,
          scanner_mode := d.scanner_mode,
          rechecker_mode := d.rechecker_mode }
        { remote := s2,
          calls := (w.calls ++
            [Call.WallarmModeUpdate { Mode := d.filtration_mode } (retrieveClientID d ClientID)]) ++
            [Call.ClientUpdate
              { Filter := { ID := retrieveClientID d ClientID },
                Fields := { ScannerMode := scannerModeToRemote d.scanner_mode,
                            AttackRecheckerMode := d.rechecker_mode } }],
          logs := w.logs } := by
  simp only [resourceWallarmGlobalModeCreate, World.WallarmModeUpdate, World.ClientUpdate, hmw,
    hcw, setIgnoringError_client_id, ResourceData.SetId]

/-- The read callback adds to the request log either the mode read alone or the
mode read followed by the client read. -/
theorem read_calls (api : API σ) (ClientID : Int) (d : ResourceData) (w : World σ) :
    (resourceWallarmGlobalModeRead api ClientID d w).w.calls =
        w.calls ++ [Call.WallarmModeRead (retrieveClientID d ClientID)] ∨
      (resourceWallarmGlobalModeRead api ClientID d w).w.calls =
        w.calls ++ [Call.WallarmModeRead (retrieveClientID d ClientID),
          Call.ClientRead
            { Filter := { Enabled := true,
                          ClientFilter := { ID := retrieveClientID d ClientID } },
              Limit := 1000, Offset := 0 }] := by
  rcases h1 : api.WallarmModeRead (retrieveClientID d ClientID) w.remote with ⟨r1, s1⟩
  rcases r1 with e | resp
  · left
    simp only [resourceWallarmGlobalModeRead, World.WallarmModeRead, h1]
  · by_cases hst : resp.Status = 200
    · rcases h2 : api.ClientRead
        { Filter := { Enabled := true, ClientFilter := { ID := retrieveClientID d ClientID } },
          Limit := 1000, Offset := 0 } s1 with ⟨r2, s2⟩
      rcases r2 with e | info
      · right
        simp only [resourceWallarmGlobalModeRead, World.WallarmModeRead, World.ClientRead, h1,
          hst, h2, set_filtration_mode, ne_eq, not_true_eq_false, if_false,
          List.append_assoc, List.singleton_append]
      · right
        cases hb : info.Body with
        | nil =>
          obtain ⟨line, h⟩ := read_client_not_found api ClientID d w resp s1 info s2 h1 hst h2 hb
          rw [h]
          simp
        | cons first rest =>
          rw [read_found api ClientID d w resp s1 info s2 first rest h1 hst h2 hb]
          simp
    · left
      obtain ⟨line, h⟩ := read_mode_not_found api ClientID d w resp s1 h1 hst
      rw [h]

/-- The read-side translation undoes the write-side translation on every value
other than the wire token itself. -/
theorem scannerMode_roundtrip (x : String) (h : x ≠ "classic") :
    scannerModeFromRemote (scannerModeToRemote x) = x := by
  unfold scannerModeToRemote scannerModeFromRemote
  by_cases hx : x = "on"
  · subst hx; decide
  · simp [hx, h]

theorem not_classic_of_mem_scannerModes (x : String) (h : x ∈ scannerModes) : x ≠ "classic" := by
  simp only [scannerModes, List.mem_cons, List.mem_singleton, List.not_mem_nil, or_false] at h
  rcases h with rfl | rfl <;> decide

/-- An unanchored `[class]+` matches exactly the texts holding a class character. -/
theorem MatchString_eq_any (cls : Char → Bool) (text : List Char) :
    MatchString cls text = text.any cls := by
  induction text with
  | nil => rfl
  | cons c cs ih =>
    simp only [MatchString, matchClassPlusHere, ih, List.any_cons, List.takeWhile_cons]
    cases cls c <;> simp

/-! ## The identity set by create -/

/-- C1, counterexample: on the storing remote, account 42 with the valid modes
`block`, `on`, `off`: both writes succeed and create returns no error, but the
identity is `42/block/classic/off`, which holds the wire token `classic` and is
not the `42/block/on/off` built from the local values. -/
theorem create_identity_counterexample :
    ValidModes "block" "on" "off" ∧
    (resourceWallarmGlobalModeCreate storeAPI 0 desired42 emptyWorld).err = none ∧
    (resourceWallarmGlobalModeCreate storeAPI 0 desired42 emptyWorld).d.id
      = "42/block/classic/off" ∧
    (resourceWallarmGlobalModeCreate storeAPI 0 desired42 emptyWorld).d.id
      ≠ formatID 42 "block" "on" "off" ∧
    (∃ before after, (resourceWallarmGlobalModeCreate storeAPI 0 desired42 emptyWorld).d.id
      = before ++ "classic" ++ after) :=
  ⟨by decide, by decide, by decide, by decide, "42/block/", "/off", by decide⟩

/-- C1, as the code has it: when both writes succeed and the remote then
answers the mode read with status 200 and the client listing with at least one
record, create leaves the identity `account/filtrationMode/scanner/recheckerMode`
in which `scanner` is the scanner mode after the write-side translation. -/
theorem create_identity_uses_translated_scanner_mode (api : API σ) (ClientID : Int)
    (d : ResourceData) (w : World σ)
    (r1 : WallarmModeResp) (s1 : σ) (r2 : ClientInfo) (s2 : σ)
    (resp : WallarmModeResp) (s3 : σ) (info : ClientInfo) (s4 : σ)
    (first : ClientBody) (rest : List ClientBody)
    (hmw : api.WallarmModeUpdate { Mode := d.filtration_mode } (retrieveClientID d ClientID)
      w.remote = (.ok r1, s1))
    (hcw : api.ClientUpdate
        { Filter := { ID := retrieveClientID d ClientID },
          Fields := { ScannerMode := scannerModeToRemote d.scanner_mode,
                      AttackRecheckerMode := d.rechecker_mode } } s1 = (.ok r2, s2))
    (hmode : api.WallarmModeRead (retrieveClientID d ClientID) s2 = (.ok resp, s3))
    (hstatus : resp.Status = 200)
    (hclient : api.ClientRead
        { Filter := { Enabled := true, ClientFilter := { ID := retrieveClientID d ClientID } },
          Limit := 1000, Offset := 0 } s3 = (.ok info, s4))
    (hbody : info.Body = first :: rest) :
    (resourceWallarmGlobalModeCreate api ClientID d w).d.id =
      formatID (retrieveClientID d ClientID) d.filtration_mode
        (scannerModeToRemote d.scanner_mode) d.rechecker_mode := by
  have hc := retrieveClientID_stored d ClientID
    (formatID (retrieveClientID d ClientID) d.filtration_mode
      (scannerModeToRemote d.scanner_mode) d.rechecker_mode)
    d.filtration_mode d.scanner_mode d.rechecker_mode
  rw [create_writes_ok api ClientID d w r1 s1 r2 s2 hmw hcw,
    read_found api ClientID _ _ resp s3 info s4 first rest (by rw [hc]; exact hmode) hstatus
      (by rw [hc]; exact hclient) hbody]

/-- C1, witness: account 42 with `block`, `on`, `off` on the storing remote. -/
theorem create_identity_uses_translated_scanner_mode_witness :
    (resourceWallarmGlobalModeCreate storeAPI 0 desired42 emptyWorld).d.id =
      formatID 42 "block" "classic" "off" :=
  create_identity_uses_translated_scanner_mode storeAPI 0 desired42 emptyWorld
    _ _ _ _ _ _ _ _ _ _ rfl rfl rfl rfl rfl rfl

/-! ## The identity after read -/

/-- C2, counterexample: the remote holds `block`, `classic`, `off` for account
42 (mode read with status 200, one client record) while the tracked state still
says `42/default/off/off`. Read refreshes the three attributes, but the identity
stays `42/default/off/off` and is not the `42/block/on/off` of the fresh values. -/
theorem read_identity_counterexample :
    (∃ resp s, storeAPI.WallarmModeRead 42 stored42 = (.ok resp, s) ∧ resp.Status = 200) ∧
    (resourceWallarmGlobalModeRead storeAPI 0 stale42 storedWorld).err = none ∧
    (resourceWallarmGlobalModeRead storeAPI 0 stale42 storedWorld).d.filtration_mode = "block" ∧
    (resourceWallarmGlobalModeRead storeAPI 0 stale42 storedWorld).d.scanner_mode = "on" ∧
    (resourceWallarmGlobalModeRead storeAPI 0 stale42 storedWorld).d.rechecker_mode = "off" ∧
    (resourceWallarmGlobalModeRead storeAPI 0 stale42 storedWorld).d.id = "42/default/off/off" ∧
    (resourceWallarmGlobalModeRead storeAPI 0 stale42 storedWorld).d.id
      ≠ formatID 42 "block" "on" "off" :=
  ⟨⟨_, _, rfl, rfl⟩, by decide⟩

/-- C2, as the code has it: when the mode read answers status 200 and the
client listing is not empty, read returns no error, sets the three attributes
from the freshly read values (scanner mode reverse-translated) and leaves the
identity as it was stored before. -/
theorem read_keeps_identity (api : API σ) (ClientID : Int) (d : ResourceData) (w : World σ)
    (resp : WallarmModeResp) (s1 : σ) (info : ClientInfo) (s2 : σ)
    (first : ClientBody) (rest : List ClientBody)
    (hmode : api.WallarmModeRead (retrieveClientID d ClientID) w.remote = (.ok resp, s1))
    (hstatus : resp.Status = 200)
    (hclient : api.ClientRead
        { Filter := { Enabled := true, ClientFilter := { ID := retrieveClientID d ClientID } },
          Limit := 1000, Offset := 0 } s1 = (.ok info, s2))
    (hbody : info.Body = first :: rest) :
    (resourceWallarmGlobalModeRead api ClientID d w).err = none ∧
    (resourceWallarmGlobalModeRead api ClientID d w).d.id = d.id ∧
    (resourceWallarmGlobalModeRead api ClientID d w).d.filtration_mode = resp.Body.Mode ∧
    (resourceWallarmGlobalModeRead api ClientID d w).d.scanner_mode
      = scannerModeFromRemote first.ScannerMode ∧
    (resourceWallarmGlobalModeRead api ClientID d w).d.rechecker_mode
      = first.AttackRecheckerMode := by
  rw [read_found api ClientID d w resp s1 info s2 first rest hmode hstatus hclient hbody]
  exact ⟨rfl, rfl, rfl, rfl, rfl⟩

/-- C2, witness: the out-of-date tracked state of account 42 against the remote
holding `block`, `classic`, `off`. -/
theorem read_keeps_identity_witness :
    (resourceWallarmGlobalModeRead storeAPI 0 stale42 storedWorld).err = none ∧
    (resourceWallarmGlobalModeRead storeAPI 0 stale42 storedWorld).d.id = stale42.id ∧
    (resourceWallarmGlobalModeRead storeAPI 0 stale42 storedWorld).d.filtration_mode = "block" ∧
    (resourceWallarmGlobalModeRead storeAPI 0 stale42 storedWorld).d.scanner_mode
      = scannerModeFromRemote "classic" ∧
    (resourceWallarmGlobalModeRead storeAPI 0 stale42 storedWorld).d.rechecker_mode = "off" :=
  read_keeps_identity storeAPI 0 stale42 storedWorld
    { Status := 200, Body := { Mode := "block" } } stored42
    { Status := 200,
      Body := [{ ID := 42, ScannerMode := "classic", AttackRecheckerMode := "off" }] } stored42
    { ID := 42, ScannerMode := "classic", AttackRecheckerMode := "off" } [] rfl rfl rfl rfl

/-! ## Create followed by read -/

/-- C3: for valid modes, when both writes succeed and leave a remote that is
stable (it answers the mode read with status 200 and the written filtration
mode, and the client listing with the written record), create returns no error,
a read after it returns no error, and the tracked `filtration_mode`,
`scanner_mode` and `rechecker_mode` equal the desired ones, after create and
after the read. -/
theorem create_then_read_roundtrip (api : API σ) (ClientID : Int) (d : ResourceData)
    (w : World σ) (P : σ → Prop)
    (r1 : WallarmModeResp) (s1 : σ) (r2 : ClientInfo) (s2 : σ)
    (hvalid : ValidModes d.filtration_mode d.scanner_mode d.rechecker_mode)
    (hmw : api.WallarmModeUpdate { Mode := d.filtration_mode } (retrieveClientID d ClientID)
      w.remote = (.ok r1, s1))
    (hcw : api.ClientUpdate
        { Filter := { ID := retrieveClientID d ClientID },
          Fields := { ScannerMode := scannerModeToRemote d.scanner_mode,
                      AttackRecheckerMode := d.rechecker_mode } } s1 = (.ok r2, s2))
    (hstable : StableRemote api (retrieveClientID d ClientID) d.filtration_mode
      (scannerModeToRemote d.scanner_mode) d.rechecker_mode P)
    (hP : P s2) :
    (resourceWallarmGlobalModeCreate api ClientID d w).err = none ∧
    (resourceWallarmGlobalModeCreate api ClientID d w).d.filtration_mode = d.filtration_mode ∧
    (resourceWallarmGlobalModeCreate api ClientID d w).d.scanner_mode = d.scanner_mode ∧
    (resourceWallarmGlobalModeCreate api ClientID d w).d.rechecker_mode = d.rechecker_mode ∧
    (resourceWallarmGlobalModeRead api ClientID
      (resourceWallarmGlobalModeCreate api ClientID d w).d
      (resourceWallarmGlobalModeCreate api ClientID d w).w).err = none ∧
    (resourceWallarmGlobalModeRead api ClientID
      (resourceWallarmGlobalModeCreate api ClientID d w).d
      (resourceWallarmGlobalModeCreate api ClientID d w).w).d.filtration_mode
        = d.filtration_mode ∧
    (resourceWallarmGlobalModeRead api ClientID
      (resourceWallarmGlobalModeCreate api ClientID d w).d
      (resourceWallarmGlobalModeCreate api ClientID d w).w).d.scanner_mode = d.scanner_mode ∧
    (resourceWallarmGlobalModeRead api ClientID
      (resourceWallarmGlobalModeCreate api ClientID d w).d
      (resourceWallarmGlobalModeCreate api ClientID d w).w).d.rechecker_mode
        = d.rechecker_mode := by
  have hrt : scannerModeFromRemote (scannerModeToRemote d.scanner_mode) = d.scanner_mode :=
    scannerMode_roundtrip _ (not_classic_of_mem_scannerModes _ hvalid.2.1)
  obtain ⟨resp, s3, hm, hst, hfm, hP3⟩ := hstable.modeRead s2 hP
  obtain ⟨info, s4, first, rest, hc, hb, hsm, hrm, hP4⟩ := hstable.clientRead s3 hP3
  obtain ⟨resp2, s5, hm2, hst2, hfm2, hP5⟩ := hstable.modeRead s4 hP4
  obtain ⟨info2, s6, first2, rest2, hc2, hb2, hsm2, hrm2, _⟩ := hstable.clientRead s5 hP5
  have hid := retrieveClientID_stored d ClientID
  have hcreate := create_writes_ok api ClientID d w r1 s1 r2 s2 hmw hcw
  rw [read_found api ClientID _ _ resp s3 info s4 first rest (by rw [hid]; exact hm) hst
    (by rw [hid]; exact hc) hb] at hcreate
  rw [hcreate]
  rw [read_found api ClientID _ _ resp2 s5 info2 s6 first2 rest2
    (by rw [hid, hid]; exact hm2) hst2 (by rw [hid, hid]; exact hc2) hb2]
  simp only [hfm, hsm, hrm, hfm2, hsm2, hrm2, hrt, and_self]

/-- C3, witness: account 42 with `block`, `on`, `off` on the storing remote,
which is stable once the two writes are stored. -/
theorem create_then_read_roundtrip_witness :
    (resourceWallarmGlobalModeCreate storeAPI 0 desired42 emptyWorld).err = none ∧
    (resourceWallarmGlobalModeCreate storeAPI 0 desired42 emptyWorld).d.filtration_mode
      = "block" ∧
    (resourceWallarmGlobalModeCreate storeAPI 0 desired42 emptyWorld).d.scanner_mode = "on" ∧
    (resourceWallarmGlobalModeCreate storeAPI 0 desired42 emptyWorld).d.rechecker_mode = "off" ∧
    (resourceWallarmGlobalModeRead storeAPI 0
      (resourceWallarmGlobalModeCreate storeAPI 0 desired42 emptyWorld).d
      (resourceWallarmGlobalModeCreate storeAPI 0 desired42 emptyWorld).w).err = none ∧
    (resourceWallarmGlobalModeRead storeAPI 0
      (resourceWallarmGlobalModeCreate storeAPI 0 desired42 emptyWorld).d
      (resourceWallarmGlobalModeCreate storeAPI 0 desired42 emptyWorld).w).d.filtration_mode
        = "block" ∧
    (resourceWallarmGlobalModeRead storeAPI 0
      (resourceWallarmGlobalModeCreate storeAPI 0 desired42 emptyWorld).d
      (resourceWallarmGlobalModeCreate storeAPI 0 desired42 emptyWorld).w).d.scanner_mode
        = "on" ∧
    (resourceWallarmGlobalModeRead storeAPI 0
      (resourceWallarmGlobalModeCreate storeAPI 0 desired42 emptyWorld).d
      (resourceWallarmGlobalModeCreate storeAPI 0 desired42 emptyWorld).w).d.rechecker_mode
        = "off" :=
  create_then_read_roundtrip storeAPI 0 desired42 emptyWorld (fun s => s = stored42)
    { Status := 200, Body := { Mode := "block" } } { modes := [(42, "block")], clients := [] }
    { Status := 200,
      Body := [{ ID := 42, ScannerMode := "classic", AttackRecheckerMode := "off" }] } stored42
    (by decide) rfl rfl
    { modeRead := fun s hs => ⟨{ Status := 200, Body := { Mode := "block" } }, s,
        by subst hs; rfl, rfl, rfl, hs⟩
      clientRead := fun s hs =>
        ⟨{ Status := 200,
           Body := [{ ID := 42, ScannerMode := "classic", AttackRecheckerMode := "off" }] }, s,
          { ID := 42, ScannerMode := "classic", AttackRecheckerMode := "off" }, [],
          by subst hs; rfl, rfl, rfl, rfl, hs⟩ }
    rfl

/-! ## The scanner-mode translation -/

/-- C4: the write-side translation sends `on` to `classic` and `off` to `off`;
the read-side translation sends `classic` to `on` and leaves every other value
unchanged; on the admitted values `on` and `off` reading undoes writing, and
writing is injective. -/
theorem scannerMode_translation_inverse :
    scannerModeToRemote "on" = "classic" ∧
    scannerModeToRemote "off" = "off" ∧
    scannerModeFromRemote "classic" = "on" ∧
    (∀ y, y ≠ "classic" → scannerModeFromRemote y = y) ∧
    (∀ x ∈ scannerModes, scannerModeFromRemote (scannerModeToRemote x) = x) ∧
    (∀ x ∈ scannerModes, ∀ y ∈ scannerModes,
      scannerModeToRemote x = scannerModeToRemote y → x = y) := by
  have hrt : ∀ x ∈ scannerModes, scannerModeFromRemote (scannerModeToRemote x) = x :=
    fun x hx => scannerMode_roundtrip x (not_classic_of_mem_scannerModes x hx)
  refine ⟨by decide, by decide, by decide, ?_, hrt, ?_⟩
  · intro y hy
    simp [scannerModeFromRemote, hy]
  · intro x hx y hy h
    rw [← hrt x hx, ← hrt y hy, h]

/-- C4, witness: reading undoes writing at `on`. -/
theorem scannerMode_translation_inverse_witness :
    scannerModeFromRemote (scannerModeToRemote "on") = "on" :=
  scannerMode_translation_inverse.2.2.2.2.1 "on" (by decide)

/-! ## Absent resources -/

/-- C5: when the mode read returns a reply whose status is not 200, read
returns no error and clears the identity; only the mode read is issued, and a
client whose mode endpoint behaves the same gives the same outcome whatever
its client endpoint does. -/
theorem read_absent_on_mode_status (api : API σ) (ClientID : Int) (d : ResourceData)
    (w : World σ) (resp : WallarmModeResp) (s1 : σ)
    (hmode : api.WallarmModeRead (retrieveClientID d ClientID) w.remote = (.ok resp, s1))
    (hstatus : resp.Status ≠ 200) :
    (resourceWallarmGlobalModeRead api ClientID d w).err = none ∧
    (resourceWallarmGlobalModeRead api ClientID d w).d.id = "" ∧
    (resourceWallarmGlobalModeRead api ClientID d w).d = d.SetId "" ∧
    (resourceWallarmGlobalModeRead api ClientID d w).w.calls
      = w.calls ++ [Call.WallarmModeRead (retrieveClientID d ClientID)] ∧
    (∀ other : API σ, other.WallarmModeRead = api.WallarmModeRead →
      resourceWallarmGlobalModeRead other ClientID d w
        = resourceWallarmGlobalModeRead api ClientID d w) := by
  refine ⟨?_, ?_, ?_, ?_, ?_⟩
  · obtain ⟨line, h⟩ := read_mode_not_found api ClientID d w resp s1 hmode hstatus
    rw [h]
  · obtain ⟨line, h⟩ := read_mode_not_found api ClientID d w resp s1 hmode hstatus
    rw [h]; rfl
  · obtain ⟨line, h⟩ := read_mode_not_found api ClientID d w resp s1 hmode hstatus
    rw [h]
  · obtain ⟨line, h⟩ := read_mode_not_found api ClientID d w resp s1 hmode hstatus
    rw [h]
  · intro other hsame
    have hmode2 : other.WallarmModeRead (retrieveClientID d ClientID) w.remote
        = (.ok resp, s1) := by rw [hsame]; exact hmode
    simp only [resourceWallarmGlobalModeRead, World.WallarmModeRead, hmode, hmode2, hstatus,
      ne_eq, not_false_eq_true, if_true]

/-- C5, witness: account 42 on a remote that holds no mode for it (the mode
read answers 404). -/
theorem read_absent_on_mode_status_witness :
    (resourceWallarmGlobalModeRead storeAPI 0 stale42 emptyWorld).err = none ∧
    (resourceWallarmGlobalModeRead storeAPI 0 stale42 emptyWorld).d.id = "" ∧
    (resourceWallarmGlobalModeRead storeAPI 0 stale42 emptyWorld).d = stale42.SetId "" ∧
    (resourceWallarmGlobalModeRead storeAPI 0 stale42 emptyWorld).w.calls
      = emptyWorld.calls ++ [Call.WallarmModeRead (retrieveClientID stale42 0)] ∧
    (∀ other : API Store, other.WallarmModeRead = storeAPI.WallarmModeRead →
      resourceWallarmGlobalModeRead other 0 stale42 emptyWorld
        = resourceWallarmGlobalModeRead storeAPI 0 stale42 emptyWorld) :=
  read_absent_on_mode_status storeAPI 0 stale42 emptyWorld
    { Status := 404, Body := { Mode := "" } } { modes := [], clients := [] } rfl (by decide)

/-- C6: when the mode read answers status 200 and the client listing returns
without error and with no record, read returns no error and clears the
identity. -/
theorem read_absent_on_empty_client_listing (api : API σ) (ClientID : Int) (d : ResourceData)
    (w : World σ) (resp : WallarmModeResp) (s1 : σ) (info : ClientInfo) (s2 : σ)
    (hmode : api.WallarmModeRead (retrieveClientID d ClientID) w.remote = (.ok resp, s1))
    (hstatus : resp.Status = 200)
    (hclient : api.ClientRead
        { Filter := { Enabled := true, ClientFilter := { ID := retrieveClientID d ClientID } },
          Limit := 1000, Offset := 0 } s1 = (.ok info, s2))
    (hbody : info.Body = []) :
    (resourceWallarmGlobalModeRead api ClientID d w).err = none ∧
    (resourceWallarmGlobalModeRead api ClientID d w).d.id = "" := by
  obtain ⟨line, h⟩ := read_client_not_found api ClientID d w resp s1 info s2 hmode hstatus
    hclient hbody
  rw [h]
  exact ⟨rfl, rfl⟩

/-- C6, witness: account 42 on a remote that holds a mode for it but no client
record. -/
theorem read_absent_on_empty_client_listing_witness :
    (resourceWallarmGlobalModeRead storeAPI 0 stale42
      { remote := { modes := [(42, "block")], clients := [] }, calls := [], logs := [] }).err
        = none ∧
    (resourceWallarmGlobalModeRead storeAPI 0 stale42
      { remote := { modes := [(42, "block")], clients := [] }, calls := [], logs := [] }).d.id
        = "" :=
  read_absent_on_empty_client_listing storeAPI 0 stale42
    { remote := { modes := [(42, "block")], clients := [] }, calls := [], logs := [] }
    { Status := 200, Body := { Mode := "block" } } { modes := [(42, "block")], clients := [] }
    { Status := 200, Body := [] } { modes := [(42, "block")], clients := [] } rfl rfl rfl rfl

/-! ## A failed mode write -/

/-- C7, counterexample: the mode endpoint answers the write with status 403 and
no error. Create does not abort: it returns no error, issues the client write
and sets the identity. -/
theorem create_mode_write_status_counterexample :
    (∃ resp s, rejectingAPI.WallarmModeUpdate { Mode := "block" } 42 stored42 = (.ok resp, s) ∧
      resp.Status = 403) ∧
    (resourceWallarmGlobalModeCreate rejectingAPI 0 desired42 storedWorld).err = none ∧
    (resourceWallarmGlobalModeCreate rejectingAPI 0 desired42 storedWorld).w.calls.any
      Call.isClientUpdate = true ∧
    (resourceWallarmGlobalModeCreate rejectingAPI 0 desired42 storedWorld).d.id
      = "42/block/classic/off" :=
  ⟨⟨_, _, rfl, rfl⟩, by decide⟩

/-- C7, as the code has it: when the write to the mode endpoint returns an
error, create returns that error, issues no further request (in particular no
write to the client endpoint) and leaves the resource data, identity included,
as it was. -/
theorem create_aborts_on_mode_write_error (api : API σ) (ClientID : Int) (d : ResourceData)
    (w : World σ) (e : String) (s1 : σ)
    (hmw : api.WallarmModeUpdate { Mode := d.filtration_mode } (retrieveClientID d ClientID)
      w.remote = (.error e, s1)) :
    (resourceWallarmGlobalModeCreate api ClientID d w).err = some e ∧
    (resourceWallarmGlobalModeCreate api ClientID d w).d = d ∧
    (resourceWallarmGlobalModeCreate api ClientID d w).w.calls
      = w.calls ++
        [Call.WallarmModeUpdate { Mode := d.filtration_mode } (retrieveClientID d ClientID)] ∧
    (resourceWallarmGlobalModeCreate api ClientID d w).w.remote = s1 := by
  simp only [resourceWallarmGlobalModeCreate, World.WallarmModeUpdate, hmw, and_self]

/-- C7, witness: account 42 on a remote whose mode endpoint fails every write. -/
theorem create_aborts_on_mode_write_error_witness :
    (resourceWallarmGlobalModeCreate failingAPI 0 desired42 emptyWorld).err
      = some "503 Service Unavailable" ∧
    (resourceWallarmGlobalModeCreate failingAPI 0 desired42 emptyWorld).d = desired42 ∧
    (resourceWallarmGlobalModeCreate failingAPI 0 desired42 emptyWorld).w.calls
      = emptyWorld.calls ++
        [Call.WallarmModeUpdate { Mode := desired42.filtration_mode }
          (retrieveClientID desired42 0)] ∧
    (resourceWallarmGlobalModeCreate failingAPI 0 desired42 emptyWorld).w.remote
      = { modes := [], clients := [] } :=
  create_aborts_on_mode_write_error failingAPI 0 desired42 emptyWorld
    "503 Service Unavailable" { modes := [], clients := [] } rfl

/-! ## Update and delete -/

/-- C8: update is create. Whatever the prior tracked state, with the new modes
in place update gives the outcome of create on the same inputs; and when both
writes succeed, the writes it adds to the request log are exactly the mode
write carrying the new filtration mode followed by the client write carrying
the translated new scanner mode and the new rechecker mode. -/
theorem update_is_create_full_overwrite (api : API σ) (ClientID : Int) (prior : ResourceData)
    (filtrationMode scannerMode recheckerMode : String) (w : World σ) :
    resourceWallarmGlobalModeUpdate api ClientID
        { prior with filtration_mode := filtrationMode, scanner_mode := scannerMode,
                     rechecker_mode := recheckerMode } w
      = resourceWallarmGlobalModeCreate api ClientID
        { prior with filtration_mode := filtrationMode, scanner_mode := scannerMode,
                     rechecker_mode := recheckerMode } w ∧
    (∀ (r1 : WallarmModeResp) (s1 : σ) (r2 : ClientInfo) (s2 : σ),
      api.WallarmModeUpdate { Mode := filtrationMode } (retrieveClientID prior ClientID)
        w.remote = (.ok r1, s1) →
      api.ClientUpdate
        { Filter := { ID := retrieveClientID prior ClientID },
          Fields := { ScannerMode := scannerModeToRemote scannerMode,
                      AttackRecheckerMode := recheckerMode } } s1 = (.ok r2, s2) →
      (resourceWallarmGlobalModeUpdate api ClientID
        { prior with filtration_mode := filtrationMode, scanner_mode := scannerMode,
                     rechecker_mode := recheckerMode } w).w.calls.filter Call.isWrite
        = w.calls.filter Call.isWrite ++
          [Call.WallarmModeUpdate { Mode := filtrationMode } (retrieveClientID prior ClientID),
           Call.ClientUpdate
            { Filter := { ID := retrieveClientID prior ClientID },
              Fields := { ScannerMode := scannerModeToRemote scannerMode,
                          AttackRecheckerMode := recheckerMode } }]) := by
  refine ⟨rfl, ?_⟩
  intro r1 s1 r2 s2 hmw hcw
  have hcreate : resourceWallarmGlobalModeCreate api ClientID
      { prior with filtration_mode := filtrationMode, scanner_mode := scannerMode,
                   rechecker_mode := recheckerMode } w =
      resourceWallarmGlobalModeRead api ClientID
        { id := formatID (retrieveClientID prior ClientID) filtrationMode
            (scannerModeToRemote scannerMode) recheckerMode,
          client_id := retrieveClientID prior ClientID,
          filtration_mode := filtrationMode,
          scanner_mode := scannerMode,
          rechecker_mode := recheckerMode }
        { remote := s2,
          calls := (w.calls ++
            [Call.WallarmModeUpdate { Mode := filtrationMode }
              (retrieveClientID prior ClientID)]) ++
            [Call.ClientUpdate
              { Filter := { ID := retrieveClientID prior ClientID },
                Fields := { ScannerMode := scannerModeToRemote scannerMode,
                            AttackRecheckerMode := recheckerMode } }],
          logs := w.logs } :=
    create_writes_ok api ClientID
      { prior with filtration_mode := filtrationMode, scanner_mode := scannerMode,
                   rechecker_mode := recheckerMode } w r1 s1 r2 s2 hmw hcw
  unfold resourceWallarmGlobalModeUpdate
  rw [hcreate]
  rcases read_calls api ClientID
    { id := formatID (retrieveClientID prior ClientID) filtrationMode
        (scannerModeToRemote scannerMode) recheckerMode,
      client_id := retrieveClientID prior ClientID,
      filtration_mode := filtrationMode,
      scanner_mode := scannerMode,
      rechecker_mode := recheckerMode }
    { remote := s2,
      calls := (w.calls ++
        [Call.WallarmModeUpdate { Mode := filtrationMode } (retrieveClientID prior ClientID)]) ++
        [Call.ClientUpdate
          { Filter := { ID := retrieveClientID prior ClientID },
            Fields := { ScannerMode := scannerModeToRemote scannerMode,
                        AttackRecheckerMode := recheckerMode } }],
      logs := w.logs } with h | h
  all_goals
    rw [h]
    simp [List.filter_append, List.filter_cons, Call.isWrite]

/-- C8, witness: the tracked state `default`, `off`, `off` of account 42 updated
to `block`, `off`, `off` (only the filtration mode differs) on the storing
remote: both writes are issued, with all the new values. -/
theorem update_is_create_full_overwrite_witness :
    (resourceWallarmGlobalModeUpdate storeAPI 0
      { stale42 with filtration_mode := "block", scanner_mode := "off",
                     rechecker_mode := "off" } storedWorld).w.calls.filter Call.isWrite
      = storedWorld.calls.filter Call.isWrite ++
        [Call.WallarmModeUpdate { Mode := "block" } (retrieveClientID stale42 0),
         Call.ClientUpdate
          { Filter := { ID := retrieveClientID stale42 0 },
            Fields := { ScannerMode := scannerModeToRemote "off",
                        AttackRecheckerMode := "off" } }] :=
  (update_is_create_full_overwrite storeAPI 0 stale42 "block" "off" "off" storedWorld).2
    _ _ _ _ rfl rfl

/-- C9: delete returns no error, adds no request to the log, and leaves the
remote state and the resource data as they were. -/
theorem delete_is_local_noop (api : API σ) (ClientID : Int) (d : ResourceData) (w : World σ) :
    (resourceWallarmGlobalModeDelete api ClientID d w).err = none ∧
    (resourceWallarmGlobalModeDelete api ClientID d w).w.calls = w.calls ∧
    (resourceWallarmGlobalModeDelete api ClientID d w).w.remote = w.remote ∧
    (resourceWallarmGlobalModeDelete api ClientID d w).d = d :=
  ⟨rfl, rfl, rfl, rfl⟩

/-! ## The `api_uuid` validator -/

/-- The validator of `api_uuid` reports no error exactly when the value holds
at least one character of the class. -/
theorem apiUUIDValidateFunc_accepts_iff (v k : String) :
    (apiUUIDValidateFunc v k).2 = [] ↔ ∃ c ∈ v.toList, apiUUIDClass c = true := by
  unfold apiUUIDValidateFunc StringMatch
  rw [MatchString_eq_any]
  rw [← List.any_eq_true]
  cases v.toList.any apiUUIDClass <;> simp

/-- C10, the code at the failing input: the validator of `api_uuid` reports no
error for the upper-case value `550E8400-E29B-41D4-A716-446655440000`, which
holds characters outside `0-9`, `a-f` and `-`. -/
theorem apiUUID_accepts_upper_case :
    (apiUUIDValidateFunc "550E8400-E29B-41D4-A716-446655440000" "api_uuid").2 = [] ∧
    ¬ (∀ c ∈ "550E8400-E29B-41D4-A716-446655440000".toList, apiUUIDClass c = true) := by
  decide

end Wallarm
